import Mathlib

/-!
Verification of the domain-checker bot (probe engine, queue, worker, cache,
rate limiter, retry wrapper) against its natural-language specification.

The Python sources are shallowly embedded: pure fragments become Lean
functions; collaborator calls (DNS, TLS, HTTP, Redis, ping, WHOIS, geo
lookups) are modelled by explicit outcome values handed to the embedded
functions.  Machine floats are modelled by rationals; Python string
truthiness is modelled explicitly.
-/

/-! ## Python-semantics helpers -/

/-- Prefix test on character lists (`needle` starts `hay`). -/
def charsStart : List Char → List Char → Bool
  | [], _ => true
  | _ :: _, [] => false
  | p :: ps, c :: cs => p = c && charsStart ps cs

/-- Contiguous-substring test on character lists; `charsContains pat s`
models the Python `pat in s` test on strings. -/
def charsContains (pat : List Char) : List Char → Bool
  | [] => charsStart pat []
  | c :: t => charsStart pat (c :: t) || charsContains pat t

/-- Python `pat in s` for strings. -/
def pyInStr (pat s : String) : Bool :=
  charsContains pat.data s.data

/-- Python truthiness of an optional string (`None` and `""` are falsy). -/
def pyTruthyStr : Option String → Bool
  | none => false
  | some s => decide (s ≠ "")

/-- Python truthiness of an optional number (`None` and `0` are falsy). -/
def pyTruthyQ : Option ℚ → Bool
  | none => false
  | some q => decide (q ≠ 0)

/-- Python `a or b` for an optional string `a` and a default `b`. -/
def pyOrStr (a : Option String) (b : String) : String :=
  match a with
  | none => b
  | some s => if s.isEmpty then b else s

/-- Python `str.capitalize()` (ASCII case mapping). -/
def pyCapitalize (s : String) : String :=
  match s.data with
  | [] => ""
  | c :: rest => String.mk (c.toUpper :: rest.map Char.toLower)

/-- Helper for `pyTitle`: the Bool records whether the previous character
was alphabetic. -/
def pyTitleAux : Bool → List Char → List Char
  | _, [] => []
  | prevAlpha, c :: rest =>
    (if c.isAlpha then (if prevAlpha then c.toLower else c.toUpper) else c)
      :: pyTitleAux c.isAlpha rest

/-- Python `str.title()` (ASCII case mapping). -/
def pyTitle (s : String) : String :=
  String.mk (pyTitleAux false s.data)

/-- Digit-group scanner for `pyInt`: accepts digits with single
underscores strictly between digits, as Python `int()` does. -/
def pyDigitsGo (acc : Nat) : List Char → Option Nat
  | [] => some acc
  | '_' :: d :: rest =>
    if d.isDigit then pyDigitsGo (acc * 10 + (d.toNat - 48)) rest else none
  | '_' :: [] => none
  | d :: rest =>
    if d.isDigit then pyDigitsGo (acc * 10 + (d.toNat - 48)) rest else none

/-- Parse an unsigned digit group as Python `int()` does. -/
def pyDigits : List Char → Option Nat
  | [] => none
  | c :: rest => if c.isDigit then pyDigitsGo (c.toNat - 48) rest else none

/-- Strip surrounding whitespace from a character list (models the
whitespace stripping of Python `int()`). -/
def pyStrip (cs : List Char) : List Char :=
  ((cs.dropWhile Char.isWhitespace).reverse.dropWhile
    Char.isWhitespace).reverse

/-- Python `int(s)`: `none` models a raised `ValueError`.  ASCII
approximation of CPython (surrounding whitespace stripped, optional sign,
decimal digits with single interior underscores). -/
def pyInt (s : String) : Option Int :=
  match pyStrip s.data with
  | [] => none
  | c :: rest =>
    if c = '-' then (pyDigits rest).map (fun n => -(n : Int))
    else if c = '+' then (pyDigits rest).map (fun n => (n : Int))
    else (pyDigits (c :: rest)).map (fun n => (n : Int))

/-- Fixed-point rendering of a nonnegative rational with one decimal,
approximating Python `f-string` `:.1f` formatting (round half up). -/
def fmt1 (q : ℚ) : String :=
  let n : Int := (q * 10 + 1 / 2).floor
  toString (n / 10) ++ "." ++ toString ((n % 10).natAbs)

/-- Fixed-point rendering with two decimals, approximating `:.2f`. -/
def fmt2 (q : ℚ) : String :=
  let n : Int := (q * 100 + 1 / 2).floor
  toString (n / 100) ++ "." ++ toString (((n % 100) / 10).natAbs)
    ++ toString ((n % 10).natAbs)

/-! ## checker.py — localization table (`TRANSLATIONS` / `t`)

The translation helper `t(key, lang, **kwargs)` picks the `en` table when
`lang == "en"` and falls back to `ru` for every other language string, and
formats the parameters in.  Each key used by `run_check` is embedded as one
function of the language string. -/

def isEn (lang : String) : Bool := lang == "en"

def t_checking (lang : String) : String :=
  if isEn lang then "🔍 Checking" else "🔍 Проверка"

def t_dns_ok (_lang : String) : String := "✅ A:"

def t_dns_fail (lang : String) : String :=
  if isEn lang then "❌ DNS: not resolved" else "❌ DNS: не разрешается"

def t_ping_ok (_lang : String) (ms : ℚ) : String :=
  "🟢 Ping: ~" ++ fmt1 ms ++ " ms"

def t_ping_fail (lang : String) : String :=
  if isEn lang then "❌ Ping: error" else "❌ Ping: ошибка"

def t_tls_supported (lang : String) (version : String) : String :=
  if isEn lang then "✅ " ++ version ++ " supported"
  else "✅ " ++ version ++ " поддерживается"

def t_tls_cipher (lang : String) (cipher : String) : String :=
  if isEn lang then "✅ " ++ cipher ++ " used"
  else "✅ " ++ cipher ++ " используется"

def t_tls_expires (lang : String) (days : Int) : String :=
  if isEn lang then "⏳ TLS certificate expires in " ++ toString days ++ " days"
  else "⏳ TLS сертификат истекает через " ++ toString days ++ " дн."

def t_tls_error (lang : String) (error : String) : String :=
  if isEn lang then "❌ TLS: connection error (" ++ error ++ ")"
  else "❌ TLS: ошибка соединения (" ++ error ++ ")"

def t_http2_ok (lang : String) : String :=
  if isEn lang then "✅ HTTP/2 supported" else "✅ HTTP/2 поддерживается"

def t_http2_fail (lang : String) : String :=
  if isEn lang then "❌ HTTP/2 not supported" else "❌ HTTP/2 не поддерживается"

def t_http3_ok (lang : String) : String :=
  if isEn lang then "✅ HTTP/3 (h3) supported" else "✅ HTTP/3 (h3) поддерживается"

def t_http3_fail (lang : String) : String :=
  if isEn lang then "❌ HTTP/3 not supported" else "❌ HTTP/3 не поддерживается"

def t_ttfb (lang : String) (time : ℚ) : String :=
  if isEn lang then "⏱️ TTFB: " ++ fmt2 time ++ " sec"
  else "⏱️ TTFB: " ++ fmt2 time ++ " сек"

def t_ttfb_unknown (lang : String) (error : String) : String :=
  if isEn lang then "⏱️ TTFB: unknown (" ++ error ++ ")"
  else "⏱️ TTFB: неизвестно (" ++ error ++ ")"

def t_redirect (_lang : String) (url : String) : String :=
  "🔁 Redirect: " ++ url

def t_no_redirect (lang : String) : String :=
  if isEn lang then "🔁 No redirect" else "🔁 Без редиректа"

def t_server_hidden (lang : String) : String :=
  if isEn lang then "🧾 Server: hidden" else "🧾 Сервер: скрыт"

def t_server (lang : String) (name : String) : String :=
  if isEn lang then "🧾 Server: " ++ name else "🧾 Сервер: " ++ name

def t_waf_detected (lang : String) (name : String) : String :=
  if isEn lang then "🛡 WAF detected: " ++ name else "🛡 WAF обнаружен: " ++ name

def t_waf_not_detected (lang : String) : String :=
  if isEn lang then "🛡 WAF not detected" else "🛡 WAF не обнаружен"

def t_cdn_detected (lang : String) (name : String) : String :=
  if isEn lang then "⚠️ CDN detected: " ++ name else "⚠️ CDN обнаружен: " ++ name

def t_cdn_not_detected (lang : String) : String :=
  if isEn lang then "🟢 CDN not detected" else "🟢 CDN не обнаружен"

def t_suitable (lang : String) : String :=
  if isEn lang then "✅ Suitable for Reality" else "✅ Пригоден для Reality"

def t_conditionally_suitable (lang : String) (cdn : String) : String :=
  if isEn lang then "⚠️ Conditionally suitable: CDN detected (" ++ cdn ++ ")"
  else "⚠️ Условно пригоден: CDN обнаружен (" ++ cdn ++ ")"

def t_not_suitable (lang : String) (reasons : String) : String :=
  if isEn lang then "❌ Not suitable: " ++ reasons
  else "❌ Не пригоден: " ++ reasons

def t_port_open (lang : String) (port : Nat) : String :=
  if isEn lang then "TCP " ++ toString port ++ " 🟢 open"
  else "TCP " ++ toString port ++ " 🟢 открыт"

def t_port_closed (lang : String) (port : Nat) : String :=
  if isEn lang then "TCP " ++ toString port ++ " 🔴 closed"
  else "TCP " ++ toString port ++ " 🔴 закрыт"

def t_spamhaus_found (lang : String) : String :=
  if isEn lang then "⚠️ Found in Spamhaus" else "⚠️ Найден в Spamhaus"

def t_spamhaus_not_found (lang : String) : String :=
  if isEn lang then "✅ Not found in Spamhaus" else "✅ Не найден в Spamhaus"

def t_spamhaus_unavailable (lang : String) : String :=
  if isEn lang then "❓ Spamhaus unavailable" else "❓ Spamhaus недоступен"

def t_whois_expires (lang : String) (date : String) : String :=
  if isEn lang then "📆 Expires: " ++ date else "📆 Срок действия: " ++ date

def t_whois_error (lang : String) : String :=
  if isEn lang then "❌ WHOIS: error" else "❌ WHOIS: ошибка"

def t_section_dns (_lang : String) : String := "🌐 DNS"

def t_section_ports (lang : String) : String :=
  if isEn lang then "📡 Port Scan" else "📡 Скан портов"

def t_section_geo (lang : String) : String :=
  if isEn lang then "🌍 Geography & ASN" else "🌍 География и ASN"

def t_section_geoip2 (lang : String) : String :=
  if isEn lang then "📊 GeoIP2 Data:" else "📊 GeoIP2 данные:"

def t_section_rir (lang : String) (rir : String) : String :=
  if isEn lang then "📋 " ++ rir ++ " Data:" else "📋 " ++ rir ++ " данные:"

def t_section_ipinfo (lang : String) : String :=
  if isEn lang then "🔍 ipinfo.io (additional):" else "🔍 ipinfo.io (дополнительно):"

def t_section_tls (_lang : String) : String := "🔒 TLS"

def t_section_http (_lang : String) : String := "🌐 HTTP"

def t_section_whois (_lang : String) : String := "📄 WHOIS"

def t_section_suitability (lang : String) : String :=
  if isEn lang then "🛰 Suitability Assessment" else "🛰 Оценка пригодности"

def t_ip_location (_lang : String) (location : String) : String :=
  "📍 IP: " ++ location

def t_ip_asn (_lang : String) (asn : String) : String :=
  "🏢 ASN: " ++ asn

def t_coordinates (lang : String) (coords : String) : String :=
  if isEn lang then "📍 Coordinates: " ++ coords else "📍 Координаты: " ++ coords

def t_accuracy (lang : String) (radius : Nat) : String :=
  if isEn lang then "🎯 Accuracy: ±" ++ toString radius ++ " km"
  else "🎯 Точность: ±" ++ toString radius ++ " км"

def t_network (lang : String) (name : String) : String :=
  if isEn lang then "🌐 Network: " ++ name else "🌐 Сеть: " ++ name

def t_country (lang : String) (country : String) : String :=
  if isEn lang then "🏳️ Country: " ++ country else "🏳️ Страна: " ++ country

def t_organization (lang : String) (org : String) : String :=
  if isEn lang then "🏢 Organization: " ++ org else "🏢 Организация: " ++ org

def t_status (lang : String) (status : String) : String :=
  if isEn lang then "📊 Status: " ++ status else "📊 Статус: " ++ status

def t_description (_lang : String) (desc : String) : String :=
  "📝 " ++ desc

def t_regions (lang : String) (regions : String) : String :=
  if isEn lang then "🌍 Regions: " ++ regions else "🌍 Регионы: " ++ regions

def t_timezone (lang : String) (tz : String) : String :=
  if isEn lang then "🕐 Timezone: " ++ tz else "🕐 Часовой пояс: " ++ tz

/-! ## checker.py — constants and detection functions -/

/-- `WAF_FINGERPRINTS` from checker.py. -/
def WAF_FINGERPRINTS : List String :=
  ["cloudflare", "imperva", "sucuri", "incapsula", "akamai", "barracuda"]

/-- `SERVER_FINGERPRINTS` dict from checker.py (insertion order kept). -/
def SERVER_FINGERPRINTS : List (String × String) :=
  [("nginx", "NGINX"), ("apache", "Apache"), ("caddy", "Caddy"),
   ("iis", "Microsoft IIS"), ("litespeed", "LiteSpeed"),
   ("openresty", "OpenResty"), ("tengine", "Tengine"),
   ("cloudflare", "Cloudflare")]

/-- `PRIORITY_CDNS` from checker.py. -/
def PRIORITY_CDNS : List (String × List String) :=
  [("cloudflare", ["cloudflare", "cf-ray"]),
   ("akamai", ["akamai", "edgekey"]),
   ("fastly", ["fastly"]),
   ("aws", ["amazon", "aws", "cloudfront"]),
   ("google", ["google", "gws", "googleusercontent"]),
   ("azure", ["azure", "microsoft"]),
   ("incapsula", ["incapsula", "imperva"]),
   ("sucuri", ["sucuri"]),
   ("stackpath", ["stackpath", "netdna"]),
   ("mailru", ["mail.ru", "mailru"]),
   ("yandex", ["yandex"])]

/-- `DEFAULT_SCAN_PORTS` from checker.py. -/
def DEFAULT_SCAN_PORTS : List Nat := [80, 443, 8080, 8443]

/-- `fingerprint_server` from checker.py: identify the web server from the
`Server` header (argument `none`/`""` is falsy). -/
def fingerprint_server (server_header : Option String) (lang : String) : String :=
  if !pyTruthyStr server_header then t_server_hidden lang
  else
    let server_lower := (server_header.getD "").toLower
    match SERVER_FINGERPRINTS.findSome?
        (fun pn => if pyInStr pn.1 server_lower then some pn.2 else none) with
    | some name => t_server lang name
    | none => t_server lang (pyTitle (server_header.getD ""))

/-- `detect_waf` from checker.py. -/
def detect_waf (headers : Option String) (lang : String) : String :=
  if !pyTruthyStr headers then t_waf_not_detected lang
  else
    let headers_lower := (headers.getD "").toLower
    match WAF_FINGERPRINTS.findSome?
        (fun w => if pyInStr w headers_lower then some w else none) with
    | some w => t_waf_detected lang (pyCapitalize w)
    | none => t_waf_not_detected lang

/-- Outcome of `get_http_info` (checker.py): every exception is caught
inside the probe, leaving the error field set. -/
structure HttpInfo where
  http2 : Bool
  http3 : Bool
  ttfb : Option ℚ
  server : Option String
  redirect : Option String
  error : Option String
deriving DecidableEq

/-- Outcome of `get_tls_info` (checker.py): every exception is caught
inside the probe, leaving the error field set. -/
structure TlsInfo where
  tls : Option String
  cipher : Option String
  expires_days : Option Int
  error : Option String
deriving DecidableEq

/-- Scan one text for the first priority CDN whose signature matches
(inner two loops of `detect_cdn`). -/
def cdnIn (text : String) : Option String :=
  PRIORITY_CDNS.findSome?
    (fun np => if np.2.any (fun pat => pyInStr pat text) then some np.1 else none)

/-- `detect_cdn` from checker.py.  The Python code also scans
`str(http_info.get("headers", {}))`, which is always the text `"{}"`
because `get_http_info` never stores a `headers` key; the braces are
written with escapes below. -/
def detect_cdn (http_info : Option HttpInfo) (asn : String) : Option String :=
  match http_info with
  | none => none
  | some h =>
    let asn_lower := if asn ≠ "" ∧ asn ≠ "N/A" then asn.toLower else ""
    let headers_to_check : List (Option String) := [h.server, some "\x7b\x7d"]
    match headers_to_check.findSome?
        (fun ho => if pyTruthyStr ho then cdnIn ((ho.getD "").toLower) else none) with
    | some name => some name
    | none => if asn_lower ≠ "" then cdnIn asn_lower else none

/-- Result of the one DNS query performed by `check_spamhaus`. -/
inductive DnsQueryOutcome where
  | answer (addr : String)
  | nxdomain
  | failure
deriving DecidableEq

/-- Split a character list at every occurrence of `sep`
(Python `str.split(sep)` semantics). -/
def splitOnChar (sep : Char) : List Char → List (List Char)
  | [] => [[]]
  | c :: rest =>
    if c = sep then [] :: splitOnChar sep rest
    else
      match splitOnChar sep rest with
      | [] => [[c]]
      | g :: gs => (c :: g) :: gs

/-- Python `ip.split(".")`. -/
def pySplitDot (s : String) : List String :=
  (splitOnChar '.' s.data).map String.mk

/-- Python `sep.join(parts)`. -/
def joinWith (sep : String) : List String → String
  | [] => ""
  | [s] => s
  | s :: rest => s ++ sep ++ joinWith sep rest

/-- The reverse-IP query name built by `check_spamhaus`. -/
def spamhausQuery (ip : String) : String :=
  joinWith "." (pySplitDot ip).reverse ++ ".zen.spamhaus.org"

/-- `check_spamhaus` from checker.py: any successful `A` answer reports
found, `NXDOMAIN` reports not found, every other failure reports
unavailable.  The reply address is never inspected. -/
def check_spamhaus (ip : String) (outcome : DnsQueryOutcome) (lang : String) :
    String :=
  let _query := spamhausQuery ip
  match outcome with
  | .answer _ => t_spamhaus_found lang
  | .nxdomain => t_spamhaus_not_found lang
  | .failure => t_spamhaus_unavailable lang

/-! ## checker.py — suitability verdict (run_check lines 943-968) -/

/-- The TLS condition of the verdict: `tls["tls"] not in ["TLSv1.3", "TLS 1.3"]`
adds a reason, so 1.3 is recognised under either spelling. -/
def isTLS13 (tls : Option String) : Bool :=
  tls == some "TLSv1.3" || tls == some "TLS 1.3"

/-- The latency condition of the verdict:
`if ping_ms and ping_ms >= ping_threshold` (Python truthiness: `None` and
`0` never trigger it). -/
def pingHigh (ping_ms : Option ℚ) (thr : ℚ) : Bool :=
  match ping_ms with
  | some p => decide (p ≠ 0 ∧ thr ≤ p)
  | none => false

def reasonHTTP2 (lang : String) : String :=
  if lang == "en" then "HTTP/2" else "HTTP/2 отсутствует"

def reasonTLS (lang : String) : String :=
  if lang == "en" then "TLS 1.3" else "TLS 1.3 отсутствует"

def reasonPing (lang : String) (p : ℚ) : String :=
  if lang == "en" then "high ping (" ++ fmt1 p ++ " ms)"
  else "высокий пинг (" ++ fmt1 p ++ " ms)"

def reasonCDN (lang : String) (cdn_name : String) : String :=
  if lang == "en" then "CDN detected (" ++ cdn_name ++ ")"
  else "CDN обнаружен (" ++ cdn_name ++ ")"

/-- The `reasons` list accumulated by `run_check` (checker.py 946-960). -/
def suitability_reasons (lang : String) (http2 : Bool) (tls : Option String)
    (ping_ms : Option ℚ) (cdn : Option String) (thr : ℚ) : List String :=
  (if http2 then [] else [reasonHTTP2 lang])
    ++ (if isTLS13 tls then [] else [reasonTLS lang])
    ++ (match ping_ms with
        | some p => if p ≠ 0 ∧ thr ≤ p then [reasonPing lang p] else []
        | none => [])
    ++ (if pyTruthyStr cdn then [reasonCDN lang (pyCapitalize (cdn.getD ""))]
        else [])

/-- The verdict line chosen by `run_check` (checker.py 962-968). -/
def suitability_line (lang : String) (cdn : Option String)
    (reasons : List String) : String :=
  if reasons = [] then t_suitable lang
  else if pyTruthyStr cdn && reasons.length == 1
      && pyInStr "CDN" (reasons.headD "") then
    t_conditionally_suitable lang (pyCapitalize (cdn.getD ""))
  else t_not_suitable lang (String.intercalate ", " reasons)

/-! ## checker.py — probe-outcome environment and `run_check` -/

/-- `results["basic"]` of `get_enhanced_ip_info`. -/
structure BasicIpInfo where
  location : String
  asn : String
  country_code : String
  isp : String
deriving DecidableEq

/-- The dict built by `get_geoip2_info` on success. -/
structure Geoip2Data where
  country : Option String
  country_code : Option String
  region : String
  city : String
  coordinates : String
  accuracy_radius : Option Nat
deriving DecidableEq

/-- `get_geoip2_info` returns either a data dict or an error string. -/
inductive Geoip2Res where
  | dict (d : Geoip2Data)
  | msg (s : String)
deriving DecidableEq

/-- The dict built by `get_rir_info` on success (keys that may be absent
are optional; `description` and `regions` are falsy when empty). -/
structure RirData where
  rir : Option String
  regions : List String
  network_name : Option String
  country : Option String
  organization_ref : Option String
  status : Option String
  description : List String
deriving DecidableEq

/-- `get_rir_info` returns either a data dict or an error string. -/
inductive RirRes where
  | dict (d : RirData)
  | msg (s : String)
deriving DecidableEq

/-- `results["ipinfo"]` of `get_enhanced_ip_info` (always a dict). -/
structure IpinfoData where
  timezone : String
  org : String
  hostname : String
deriving DecidableEq

/-- The dict returned by `get_enhanced_ip_info` (it catches every
exception internally, so all four keys are always present). -/
structure EnhancedIpInfo where
  basic : BasicIpInfo
  geoip2 : Geoip2Res
  rir : RirRes
  ipinfo : IpinfoData
deriving DecidableEq

/-- Outcomes of all collaborator calls one `run_check` run can make.
`enhanced = none` models the `except` branch at checker.py line 929
(an exception escaping the `get_enhanced_ip_info` call). -/
structure Env where
  dns : Option String
  ping : Option ℚ
  tls : TlsInfo
  http : HttpInfo
  enhanced : Option EnhancedIpInfo
  portOpen : Nat → Bool
  spamhaus : DnsQueryOutcome
  whois : Option String

/-- Names of the network sub-probes `run_check` can invoke, for tracing. -/
inductive Probe where
  | dns | ping | tls | http | enhancedIp | ports | spamhaus | whois
deriving DecidableEq

/-- `scan_ports` from checker.py: one status line per default port. -/
def scan_ports_lines (portOpen : Nat → Bool) (lang : String) : List String :=
  DEFAULT_SCAN_PORTS.map
    (fun p => if portOpen p then t_port_open lang p else t_port_closed lang p)

/-- The `domain:port` parsing prologue of `run_check` (checker.py 849-854).
`int(port_str)` raises `ValueError` on a non-numeric suffix, modelled by
the `error` case. -/
def parseDomainPort (domain_port : String) : Except String (String × Int) :=
  if pyInStr ":" domain_port then
    let domain := String.mk (domain_port.data.takeWhile (fun c => c ≠ ':'))
    let port_str :=
      String.mk ((domain_port.data.dropWhile (fun c => c ≠ ':')).drop 1)
    match pyInt port_str with
    | some p => Except.ok (domain, p)
    | none =>
      Except.error ("ValueError: invalid literal for int() with base 10: "
        ++ port_str)
  else
    Except.ok (domain_port, 443)

/-- The GeoIP2 fragment of the full report (checker.py 996-1004). -/
def geoip2Block (lang : String) : Geoip2Res → List String
  | .dict g =>
    ["\n" ++ t_section_geoip2 lang]
      ++ (if g.coordinates ≠ "N/A" then [t_coordinates lang g.coordinates]
          else [])
      ++ (match g.accuracy_radius with
          | some r => if r ≠ 0 then [t_accuracy lang r] else []
          | none => [])
  | .msg s => ["📊 GeoIP2: " ++ s]

/-- The RIR fragment of the full report (checker.py 1007-1027). -/
def rirBlock (lang : String) : RirRes → List String
  | .dict d =>
    ["\n" ++ t_section_rir lang (d.rir.getD "RIR")]
      ++ (if pyTruthyStr d.network_name
          then [t_network lang (d.network_name.getD "")] else [])
      ++ (if pyTruthyStr d.country
          then [t_country lang (d.country.getD "")] else [])
      ++ (if pyTruthyStr d.organization_ref
          then [t_organization lang (d.organization_ref.getD "")] else [])
      ++ (if pyTruthyStr d.status
          then [t_status lang (d.status.getD "")] else [])
      ++ (if d.description ≠ []
          then (d.description.take 2).map (t_description lang) else [])
      ++ (if d.regions ≠ []
          then [t_regions lang (String.intercalate ", " d.regions)] else [])
  | .msg s => ["📋 RIR: " ++ s]

/-- The ipinfo.io fragment of the full report (checker.py 1030-1041). -/
def ipinfoBlock (lang : String) (i : IpinfoData) : List String :=
  ["\n" ++ t_section_ipinfo lang]
    ++ (if i.timezone ≠ "N/A" then [t_timezone lang i.timezone] else [])
    ++ (if !i.hostname.isEmpty && !pyInStr "spamhaus" i.hostname.toLower then
          [t_spamhaus_not_found lang]
        else if pyInStr "spamhaus" i.hostname.toLower then
          [t_spamhaus_found lang]
        else [])

/-- The ping line computed by `run_check` (checker.py 871-875). -/
def ping_result (env : Env) (lang : String) : String :=
  if pyTruthyQ env.ping then t_ping_ok lang (env.ping.getD 0)
  else t_ping_fail lang

/-- The TLS section lines computed by `run_check` (checker.py 880-891),
including the operator-precedence quirk of line 890: for a non-Russian
language the error text is always `unknown`, even when a concrete TLS
error is available. -/
def tls_results (env : Env) (lang : String) : List String :=
  if pyTruthyStr env.tls.tls then
    [t_tls_supported lang (env.tls.tls.getD "")]
      ++ (if pyTruthyStr env.tls.cipher
          then [t_tls_cipher lang (env.tls.cipher.getD "")] else [])
      ++ (match env.tls.expires_days with
          | some d => [t_tls_expires lang d]
          | none => [])
  else
    [t_tls_error lang
      (if lang == "ru" then pyOrStr env.tls.error "неизвестно" else "unknown")]

/-- The HTTP/2 and HTTP/3 lines computed by `run_check`
(checker.py 898-901). -/
def http_results (env : Env) (lang : String) : List String :=
  [if env.http.http2 then t_http2_ok lang else t_http2_fail lang,
   if env.http.http3 then t_http3_ok lang else t_http3_fail lang]

/-- The additional HTTP lines computed by `run_check`
(checker.py 903-915). -/
def http_additional (env : Env) (lang : String) : List String :=
  (if pyTruthyQ env.http.ttfb then [t_ttfb lang (env.http.ttfb.getD 0)]
   else [t_ttfb_unknown lang
          (pyOrStr env.http.error
            (if lang == "ru" then "неизвестно" else "unknown"))])
    ++ (if pyTruthyStr env.http.redirect
        then [t_redirect lang (env.http.redirect.getD "")]
        else [t_no_redirect lang])
    ++ [fingerprint_server env.http.server lang]

/-- The location string of the IP block of `run_check`
(checker.py 920-930). -/
def runCheckLoc (env : Env) : String :=
  match env.enhanced with
  | some e => e.basic.location
  | none => "N/A"

/-- The ASN string of the IP block of `run_check` (checker.py 920-930). -/
def runCheckAsn (env : Env) : String :=
  match env.enhanced with
  | some e => e.basic.asn
  | none => "N/A"

/-- The CDN detected by `run_check` (checker.py 922-930): stays `None`
when the enhanced-IP lookup raised. -/
def runCheckCdn (env : Env) : Option String :=
  match env.enhanced with
  | some e => detect_cdn (some env.http) e.basic.asn
  | none => none

/-- The WAF line of `run_check` (checker.py 933). -/
def waf_result (env : Env) (lang : String) : String :=
  detect_waf env.http.server lang

/-- The CDN line of `run_check` (checker.py 935-938). -/
def cdn_result (env : Env) (lang : String) : String :=
  if pyTruthyStr (runCheckCdn env) then
    t_cdn_detected lang (pyCapitalize ((runCheckCdn env).getD ""))
  else t_cdn_not_detected lang

/-- The reasons list `run_check` accumulates for one environment. -/
def runCheckReasons (env : Env) (thr : ℚ) (lang : String) : List String :=
  suitability_reasons lang env.http.http2 env.tls.tls env.ping
    (runCheckCdn env) thr

/-- The verdict line `run_check` renders for one environment. -/
def runCheckVerdictLine (env : Env) (thr : ℚ) (lang : String) : String :=
  suitability_line lang (runCheckCdn env) (runCheckReasons env thr lang)

/-- The abbreviated report of `run_check` (checker.py 974-981). -/
def runCheckShortLines (env : Env) (domain ip : String) (thr : ℚ)
    (lang : String) : List String :=
  [t_checking lang ++ " " ++ domain ++ ":",
   t_dns_ok lang ++ " " ++ ip,
   ping_result env lang,
   "🔒 TLS: " ++ (tls_results env lang).headD (t_tls_error lang "N/A"),
   "🌐 HTTP: " ++ (http_results env lang).headD "",
   waf_result env lang,
   cdn_result env lang,
   "🛰 " ++ runCheckVerdictLine env thr lang]

/-- The full report of `run_check` (checker.py 982-1070). -/
def runCheckFullLines (env : Env) (domain ip : String) (thr : ℚ)
    (lang : String) : List String :=
  [t_checking lang ++ " " ++ domain ++ ":",
   t_dns_ok lang ++ " " ++ ip]
    ++ ["\n" ++ t_section_dns lang, t_dns_ok lang ++ " " ++ ip]
    ++ ["\n" ++ t_section_ports lang]
    ++ scan_ports_lines env.portOpen lang
    ++ ["\n" ++ t_section_geo lang, t_ip_location lang (runCheckLoc env),
        t_ip_asn lang (runCheckAsn env)]
    ++ (match env.enhanced with
        | some e => geoip2Block lang e.geoip2 ++ rirBlock lang e.rir
            ++ ipinfoBlock lang e.ipinfo
        | none => [])
    ++ (match env.enhanced with
        | some _ => []
        | none => [check_spamhaus ip env.spamhaus lang])
    ++ [ping_result env lang]
    ++ ["\n" ++ t_section_tls lang] ++ tls_results env lang
    ++ ["\n" ++ t_section_http lang] ++ http_results env lang
    ++ http_additional env lang
    ++ [waf_result env lang, cdn_result env lang]
    ++ ["\n" ++ t_section_whois lang]
    ++ [match env.whois with
        | some d => t_whois_expires lang d
        | none => t_whois_error lang]
    ++ ["\n" ++ t_section_suitability lang]
    ++ [runCheckVerdictLine env thr lang]

/-- `run_check` from checker.py, returning the report as its list of lines
(the Python code joins them with a newline at the end) together with the
trace of network sub-probes invoked.  An `Except.error` result models an
exception escaping `run_check` (the `int(port_str)` of the parsing
prologue is the only statement that can raise). -/
def runCheck (env : Env) (domain_port : String) (ping_threshold : ℚ)
    (full_report : Bool) (lang : String) :
    Except String (List String) × List Probe :=
  match parseDomainPort domain_port with
  | .error e => (.error e, [])
  | .ok (domain, _port) =>
    match env.dns with
    | none =>
      (.ok [t_checking lang ++ " " ++ domain ++ ":", t_dns_fail lang],
       [.dns])
    | some ip =>
      if !full_report then
        (.ok (runCheckShortLines env domain ip ping_threshold lang),
         [.dns, .ping, .tls, .http, .enhancedIp])
      else
        (.ok (runCheckFullLines env domain ip ping_threshold lang),
         [.dns, .ping, .tls, .http, .enhancedIp] ++ [.ports]
           ++ (match env.enhanced with
               | some _ => []
               | none => [.spamhaus])
           ++ [.whois])

/-- The textual report `run_check` returns: its lines joined by newlines. -/
def runCheckReport (env : Env) (domain_port : String) (ping_threshold : ℚ)
    (full_report : Bool) (lang : String) : Except String String :=
  (runCheck env domain_port ping_threshold full_report lang).1.map
    (String.intercalate "\n")

/-! ## retry_logic.py -/

/-- `RetryConfig` from retry_logic.py. -/
structure RetryConfig where
  max_attempts : Nat
  base_delay : ℚ
  max_delay : ℚ
  exponential_base : ℚ
  jitter : Bool
deriving DecidableEq

/-- `DOMAIN_CHECK_RETRY` from retry_logic.py. -/
def DOMAIN_CHECK_RETRY : RetryConfig :=
  { max_attempts := 3, base_delay := 2, max_delay := 30,
    exponential_base := 2, jitter := true }

/-- The capped exponential delay computed before jitter
(retry_logic.py 60-63). -/
def backoffDelay (cfg : RetryConfig) (attempt : Nat) : ℚ :=
  min (cfg.base_delay * cfg.exponential_base ^ attempt) cfg.max_delay

/-- The delay actually slept: jitter multiplies by `0.5 + random() * 0.5`
(retry_logic.py 66-67), where `j` models the `random.random()` draw. -/
def jitteredDelay (cfg : RetryConfig) (attempt : Nat) (j : ℚ) : ℚ :=
  if cfg.jitter then backoffDelay cfg attempt * (1 / 2 + j * (1 / 2))
  else backoffDelay cfg attempt

/-- The retry loop of `retry_with_backoff`.  `f i` is the outcome of the
i-th invocation of the wrapped function, `j i` the i-th `random.random()`
draw; the fuel equals the remaining loop iterations.  The result pairs the
final outcome (`Except.error none` models the unreachable
`RuntimeError` fallback when `max_attempts = 0`) with the list of slept
delays. -/
def retryFrom {E A : Type} (cfg : RetryConfig) (f : Nat → Except E A)
    (j : Nat → ℚ) : Nat → Nat → Except (Option E) A × List ℚ
  | _, 0 => (Except.error none, [])
  | attempt, fuel + 1 =>
    match f attempt with
    | .ok a => (.ok a, [])
    | .error e =>
      if attempt = cfg.max_attempts - 1 then (.error (some e), [])
      else
        let d := jitteredDelay cfg attempt (j attempt)
        let rest := retryFrom cfg f j (attempt + 1) fuel
        (rest.1, d :: rest.2)

/-- `retry_with_backoff` from retry_logic.py. -/
def retry_with_backoff {E A : Type} (cfg : RetryConfig)
    (f : Nat → Except E A) (j : Nat → ℚ) : Except (Option E) A × List ℚ :=
  retryFrom cfg f j 0 cfg.max_attempts

/-! ## redis_queue.py — dedup guard and queue -/

/-- The task dict serialised into `queue:domains`
(redis_queue.py 85-97). -/
structure CheckTask where
  domain : String
  user_id : Int
  short_mode : Bool
  chat_id : Int
  message_id : Option Int
  thread_id : Option Int
  lang : String
deriving DecidableEq

/-- The Redis state touched by the queue module: the `queue:domains` list
(head = most recently `lpush`ed) and the set of currently present
`pending:*` guard keys. -/
structure QueueState where
  queue : List CheckTask
  pending : List String
deriving DecidableEq

/-- The dedup-guard key `pending:{domain}:{user_id}`. -/
def pendingKey (domain : String) (user_id : Int) : String :=
  "pending:" ++ domain ++ ":" ++ toString user_id

/-- TTL (seconds) the guard key is set with (`ex=300`). -/
def PENDING_TTL : Nat := 300

/-- `is_domain_in_queue` from redis_queue.py. -/
def is_domain_in_queue (s : QueueState) (domain : String) (user_id : Int) :
    Bool :=
  s.pending.contains (pendingKey domain user_id)

/-- The task value built by `enqueue` (`chat_id or user_id` keeps Python
truthiness: `None` and `0` fall back to `user_id`). -/
def mkTask (domain : String) (user_id : Int) (short_mode : Bool)
    (chat_id : Option Int) (message_id : Option Int) (thread_id : Option Int)
    (lang : String) : CheckTask :=
  { domain := domain, user_id := user_id, short_mode := short_mode,
    chat_id := match chat_id with
      | none => user_id
      | some c => if c = 0 then user_id else c,
    message_id := message_id, thread_id := thread_id, lang := lang }

/-- `enqueue` from redis_queue.py: a present guard key short-circuits with
`False`; otherwise the task is pushed and the guard set (TTL 300 s).  No
queue-depth check of any kind is performed. -/
def enqueue (s : QueueState) (domain : String) (user_id : Int)
    (short_mode : Bool) (chat_id : Option Int) (message_id : Option Int)
    (thread_id : Option Int) (lang : String) : Bool × QueueState :=
  if s.pending.contains (pendingKey domain user_id) then (false, s)
  else
    (true,
     { queue := mkTask domain user_id short_mode chat_id message_id thread_id
         lang :: s.queue,
       pending := pendingKey domain user_id :: s.pending })

/-- Number of queued tasks for one (target, requester) pair. -/
def outstanding (s : QueueState) (domain : String) (user_id : Int) : Nat :=
  (s.queue.filter
    (fun tk => tk.domain == domain && tk.user_id == user_id)).length

/-! ## bot.py — rate limiter (check_rate_limit / check_daily_limit) -/

/-- `check_rate_limit` from bot.py 365-378 acting on the counter stored at
`rate:{user}:{YYYYMMDDHHMM}`: reject at 10 without incrementing, else
increment (and set TTL 60). -/
def check_rate_limit (count : Nat) : Bool × Nat :=
  if 10 ≤ count then (false, count) else (true, count + 1)

/-- `check_daily_limit` from bot.py 380-393 acting on the counter stored at
`daily:{user}:{YYYYMMDD}`: reject at 100 without incrementing, else
increment (and set TTL 86400). -/
def check_daily_limit (count : Nat) : Bool × Nat :=
  if 100 ≤ count then (false, count) else (true, count + 1)

/-- TTL passed to `r.expire` by `check_rate_limit`. -/
def RATE_WINDOW_TTL : Nat := 60

/-- TTL passed to `r.expire` by `check_daily_limit`. -/
def DAILY_WINDOW_TTL : Nat := 86400

/-- The per-minute counter key format of bot.py. -/
def rateKey (user_id : Int) (bucket : String) : String :=
  "rate:" ++ toString user_id ++ ":" ++ bucket

/-- The per-day counter key format of bot.py. -/
def dailyKey (user_id : Int) (bucket : String) : String :=
  "daily:" ++ toString user_id ++ ":" ++ bucket

/-- The two counters of one requester in the current windows. -/
structure RateState where
  minute : Nat
  daily : Nat
deriving DecidableEq

/-- The submission gate as called at every bot.py call site:
`check_rate_limit` first and, only if it passes, `check_daily_limit`. -/
def limitGate (s : RateState) : Bool × RateState :=
  let r1 := check_rate_limit s.minute
  if r1.1 then
    let r2 := check_daily_limit s.daily
    (r2.1, { minute := r1.2, daily := r2.2 })
  else (false, { minute := r1.2, daily := s.daily })

/-- Counter evolution under repeated submissions from a fresh window. -/
def gateIter : Nat → RateState
  | 0 => { minute := 0, daily := 0 }
  | n + 1 => (limitGate (gateIter n)).2

/-! ## worker.py — sub-results, report rendering, cache; bot.py cache read -/

/-- `check_dns` result (worker.py). -/
structure WDnsResult where
  a_record : Option String
  error : Option String
deriving DecidableEq

/-- `check_tls` result (worker.py). -/
structure WTlsResult where
  tls_version : Option String
  cipher : Option String
  cert_expiry : Option String
  error : Option String
deriving DecidableEq

/-- `check_http_version` result (worker.py). -/
structure WHttpResult where
  http_version : String
  alt_svc : Option String
  ttfb : Option String
  redirect : Option String
  server : Option String
  error : Option String
deriving DecidableEq

/-- `check_cname` result (worker.py). -/
structure WCnameResult where
  cdn : Option String
  cname : Option String
deriving DecidableEq

/-- `check_waf` result (worker.py). -/
structure WWafResult where
  waf : Option String
deriving DecidableEq

/-- `check_geo_asn` result (worker.py). -/
structure WGeoAsnResult where
  location : String
  asn : String
  ping : Option String
deriving DecidableEq

/-- `check_whois` result (worker.py). -/
structure WWhoisResult where
  expiry : String
deriving DecidableEq

/-- Python `f"{x}"` on an optional string (`None` prints as `None`). -/
def pyStrO : Option String → String
  | none => "None"
  | some s => s

/-- The `alt-svc`-advertises-h3 test of worker.py
(`alt_svc and "h3" in alt_svc`). -/
def altSvcH3 (o : Option String) : Bool :=
  pyTruthyStr o && pyInStr "h3" (o.getD "")

/-- `evaluate_suitability` from worker.py 197-209 (binary verdict; no
conditionally-suitable state, no latency criterion, WAF counts). -/
def evaluate_suitability (http : WHttpResult) (tls : WTlsResult)
    (cname : WCnameResult) (waf : WWafResult) : String :=
  let reasons :=
    (if http.http_version ≠ "HTTP/2" ∧ http.http_version ≠ "HTTP/3"
     then ["HTTP/2 отсутствует"] else [])
    ++ (if ¬pyTruthyStr tls.tls_version ∨ tls.tls_version ≠ some "TLSv1.3"
        then ["TLSv1.3 отсутствует"] else [])
    ++ (if pyTruthyStr cname.cdn
        then ["CDN обнаружен: " ++ cname.cdn.getD ""] else [])
    ++ (if pyTruthyStr waf.waf
        then ["WAF обнаружен: " ++ waf.waf.getD ""] else [])
  if reasons ≠ [] then "❌ Не пригоден: " ++ String.intercalate ", " reasons
  else "✅ Пригоден для Reality"

/-- The port-scan block of the worker report (worker.py 245-247). -/
def workerPortsBlock (open_ports : List Nat) : List Nat → String
  | [] => ""
  | p :: rest =>
    "TCP " ++ toString p ++ " "
      ++ (if open_ports.contains p then "🟢 открыт" else "🔴 закрыт") ++ "\n"
      ++ workerPortsBlock open_ports rest

/-- Concatenate report segments. -/
def joinAll : List String → String
  | [] => ""
  | s :: rest => s ++ joinAll rest

/-- The segments of the full report built by `check_domain`
(worker.py 238-278), in order. -/
def full_output_segs (domain : String) (dns : WDnsResult)
    (open_ports : List Nat) (geo : WGeoAsnResult) (tls : WTlsResult)
    (http : WHttpResult) (waf : WWafResult) (cname : WCnameResult)
    (who : WWhoisResult) (suitability : String) : List String :=
  ["🔍 Проверка " ++ domain ++ ":\n",
   "✅ A: " ++ pyOrStr dns.a_record "неизвестно" ++ "\n",
   (if pyTruthyStr dns.error then "DNS Error: " ++ dns.error.getD "" ++ "\n"
    else ""),
   "\n🌐 DNS\n",
   "✅ A: " ++ pyOrStr dns.a_record "неизвестно" ++ "\n",
   "\n📡 Скан портов\n",
   workerPortsBlock open_ports [80, 443, 8080, 8443],
   "\n🌍 География и ASN\n",
   "📍 IP: " ++ geo.location ++ "\n",
   "🏢 ASN: " ++ geo.asn ++ "\n",
   "✅ Не найден в Spamhaus\n",
   "🟢 Ping: " ++ pyOrStr geo.ping "неизвестно" ++ "\n",
   "\n🔒 TLS\n",
   (if pyTruthyStr tls.tls_version
    then "✅ " ++ tls.tls_version.getD "" ++ " поддерживается\n" else ""),
   (if pyTruthyStr tls.cipher
    then "✅ " ++ tls.cipher.getD "" ++ " используется\n" else ""),
   (if pyTruthyStr tls.cert_expiry
    then "⏳ TLS сертификат " ++ tls.cert_expiry.getD "" ++ "\n" else ""),
   (if pyTruthyStr tls.error
    then "TLS Error: " ++ tls.error.getD "" ++ "\n" else ""),
   "\n🌐 HTTP\n",
   (if http.http_version = "HTTP/2" ∨ http.http_version = "HTTP/3"
    then "✅ " ++ http.http_version ++ " поддерживается\n"
    else "❌ " ++ http.http_version ++ " не поддерживается\n"),
   (if altSvcH3 http.alt_svc then "✅ HTTP/3 (h3) поддерживается\n"
    else "❌ HTTP/3 не поддерживается\n"),
   "⏱️ TTFB: " ++ pyOrStr http.ttfb "неизвестно" ++ "\n",
   "🔁 " ++ pyStrO http.redirect ++ "\n",
   "🧾 Сервер: " ++ pyStrO http.server ++ "\n",
   "🟢 WAF " ++ (if !pyTruthyStr waf.waf then "не обнаружен"
                 else "обнаружен: " ++ waf.waf.getD "") ++ "\n",
   "🟢 CDN " ++ (if !pyTruthyStr cname.cdn then "не обнаружен"
                 else "обнаружен: " ++ cname.cdn.getD "") ++ "\n",
   (if pyTruthyStr cname.cname
    then "DNS CNAME: " ++ cname.cname.getD "" ++ "\n" else ""),
   "\n📄 WHOIS\n",
   "📆 Срок действия: " ++ who.expiry ++ "\n",
   "\n🛰 Оценка пригодности\n",
   suitability ++ "\n"]

/-- The full report string `check_domain` renders and caches. -/
def full_output (domain : String) (dns : WDnsResult) (open_ports : List Nat)
    (geo : WGeoAsnResult) (tls : WTlsResult) (http : WHttpResult)
    (waf : WWafResult) (cname : WCnameResult) (who : WWhoisResult)
    (suitability : String) : String :=
  joinAll (full_output_segs domain dns open_ports geo tls http waf cname who
    suitability)

/-- The cache key `check_domain` writes and `handle_domain_logic` reads:
`result:{domain}` — the mode is not part of the key. -/
def resultKey (domain : String) : String := "result:" ++ domain

/-- TTL (seconds) the cached report is written with (`ex=86400`). -/
def RESULT_TTL : Nat := 86400

/-- A keyed string store modelling the Redis keys the cache uses. -/
def Store := List (String × String)

/-- Redis `GET`. -/
def storeGet (st : Store) (k : String) : Option String :=
  (st.find? (fun kv => kv.1 == k)).map (fun kv => kv.2)

/-- Redis `SET` (overwrites any previous value at the key). -/
def storeSet (st : Store) (k v : String) : Store :=
  (k, v) :: st.filter (fun kv => kv.1 != k)

/-- The cache write of `check_domain` (worker.py 281). -/
def cacheWrite (st : Store) (domain : String) (out : String) : Store :=
  storeSet st (resultKey domain) out

/-- The full-report marker test of `handle_domain_logic` (bot.py 1509). -/
def is_full_report (cached : String) : Bool :=
  pyInStr "🌍 География" cached && pyInStr "📄 WHOIS" cached
    && pyInStr "⏱️ TTFB" cached

/-- The cache-hit decision of `handle_domain_logic` (bot.py 1508-1510):
`if cached and (short_mode or is_full_report)`. -/
def cacheHit (st : Store) (domain : String) (short_mode : Bool) : Bool :=
  match storeGet st (resultKey domain) with
  | none => false
  | some c => pyTruthyStr (some c) && (short_mode || is_full_report c)

/-- Claim-side key format `result:&lt;target&gt;:&lt;mode&gt;` asserted by the
specification. -/
def claimResultKey (domain mode : String) : String :=
  "result:" ++ domain ++ ":" ++ mode

/-! ## Claim C8 — block-list check outcomes -/

/-- Claim-side predicate, following the wording of the specification: the reply
address falls in the designated reply-address ranges of the block-list (the
127.0.0.0/8 DNSBL return-code range). -/
def specBlocklistReplyAddr (addr : String) : Bool :=
  charsStart "127.".data addr.data

/-- Claim-side suitability predicate, following the wording of the claim:
HTTP/2 supported, TLS version 1.3, a measured latency strictly below the
threshold, and no CDN detected. -/
def claimSuitable (http2 : Bool) (tls : Option String) (ping : Option ℚ)
    (cdn : Option String) (thr : ℚ) : Prop :=
  http2 = true ∧ isTLS13 tls = true ∧ (∃ p, ping = some p ∧ p < thr)
    ∧ cdn = none

/-! ## Claim C7 — DNS is first and the only terminal sub-probe -/

/-- A fixed all-failures probe environment for concrete runs. -/
def env0 : Env :=
  { dns := none, ping := none, tls := ⟨none, none, none, none⟩,
    http := ⟨false, false, none, none, none, none⟩, enhanced := none,
    portOpen := fun _ => false, spamhaus := .failure, whois := none }

/-- `env0` with a successfully resolved address. -/
def env1 : Env := { env0 with dns := some "1.2.3.4" }

/-! Substring lemmas used to locate literal report fragments. -/

theorem charsStart_append (p s t : List Char) (h : charsStart p s = true) :
    charsStart p (s ++ t) = true := by
  induction p generalizing s with
  | nil => simp [charsStart]
  | cons a ps ih =>
    cases s with
    | nil => simp [charsStart] at h
    | cons c cs =>
      simp only [charsStart, Bool.and_eq_true] at h ⊢
      exact ⟨h.1, ih cs h.2⟩

theorem charsContains_append_left (p s t : List Char)
    (h : charsContains p s = true) : charsContains p (s ++ t) = true := by
  induction s with
  | nil =>
    cases p with
    | nil => cases t <;> simp [charsContains, charsStart]
    | cons a ps => simp [charsContains, charsStart] at h
  | cons c cs ih =>
    simp only [charsContains, Bool.or_eq_true] at h
    rcases h with h | h
    · simp only [List.cons_append, charsContains, Bool.or_eq_true]
      exact Or.inl (charsStart_append _ _ _ h)
    · simp only [List.cons_append, charsContains, Bool.or_eq_true]
      exact Or.inr (ih h)

theorem charsContains_append_right (p s t : List Char)
    (h : charsContains p t = true) : charsContains p (s ++ t) = true := by
  induction s with
  | nil => simpa using h
  | cons c cs ih =>
    simp only [List.cons_append, charsContains, Bool.or_eq_true]
    exact Or.inr ih

theorem string_data_append (a b : String) : (a ++ b).data = a.data ++ b.data :=
  rfl

theorem pyInStr_append_left (p a b : String) (h : pyInStr p a = true) :
    pyInStr p (a ++ b) = true := by
  unfold pyInStr at h ⊢
  rw [string_data_append]
  exact charsContains_append_left _ _ _ h

theorem pyInStr_append_right (p a b : String) (h : pyInStr p b = true) :
    pyInStr p (a ++ b) = true := by
  unfold pyInStr at h ⊢
  rw [string_data_append]
  exact charsContains_append_right _ _ _ h

/-! ## Shared helper lemmas -/

theorem pyInStr_joinAll (pat : String) (l : List String) (s : String)
    (hs : s ∈ l) (h : pyInStr pat s = true) :
    pyInStr pat (joinAll l) = true := by
  induction l with
  | nil => cases hs
  | cons a t ih =>
    rcases List.mem_cons.mp hs with rfl | hmem
    · exact pyInStr_append_left _ _ _ h
    · exact pyInStr_append_right _ _ _ (ih hmem)

theorem ne_empty_left (a b : String) (h : a.data ≠ []) : a ++ b ≠ "" := by
  intro he
  apply h
  have hd := congrArg String.data he
  rw [string_data_append] at hd
  exact (List.append_eq_nil.mp hd).1

/-! ## Claim C3 — idempotent submission -/

/-- C3: submission is idempotent per (target, requester): while the guard
key is absent and no task for the pair is queued, the first `enqueue` sets
the guard key (TTL 300 s = 5 min) and appends exactly one task, and a
second `enqueue` for the same pair returns the already-queued result
(`False`) and leaves the state unchanged, so exactly one outstanding task
for the pair exists. -/
theorem claim_C3_idempotent_submit (s : QueueState) (d : String) (u : Int)
    (sm : Bool) (cid mid tid : Option Int) (l : String)
    (hguard : s.pending.contains (pendingKey d u) = false)
    (hout : outstanding s d u = 0) :
    (enqueue s d u sm cid mid tid l).1 = true
    ∧ outstanding (enqueue s d u sm cid mid tid l).2 d u = 1
    ∧ (enqueue s d u sm cid mid tid l).2.queue.length = s.queue.length + 1
    ∧ (enqueue s d u sm cid mid tid l).2.pending.contains (pendingKey d u)
        = true
    ∧ PENDING_TTL = 300
    ∧ enqueue (enqueue s d u sm cid mid tid l).2 d u sm cid mid tid l
        = (false, (enqueue s d u sm cid mid tid l).2) := by
  have hq : (s.queue.filter
      (fun tk => tk.domain == d && tk.user_id == u)).length = 0 := hout
  have hmem : pendingKey d u ∉ s.pending := by simpa using hguard
  refine ⟨?_, ?_, ?_, ?_, rfl, ?_⟩
  · simp [enqueue, hmem]
  · have h2 : (enqueue s d u sm cid mid tid l).2.queue
        = mkTask d u sm cid mid tid l :: s.queue := by
      simp [enqueue, hmem]
    rw [outstanding, h2, List.filter_cons_of_pos (by simp [mkTask]),
      List.length_cons, hq]
  · simp [enqueue, hmem]
  · simp [enqueue, hmem]
  · simp [enqueue, hmem]

/-- Closed witness for C3 at a concrete empty state. -/
theorem claim_C3_witness :
    (enqueue ⟨[], []⟩ "example.com" 1 true none none none "ru").1 = true
    ∧ outstanding (enqueue ⟨[], []⟩ "example.com" 1 true none none none
        "ru").2 "example.com" 1 = 1
    ∧ (enqueue ⟨[], []⟩ "example.com" 1 true none none none
        "ru").2.queue.length = ([] : List CheckTask).length + 1
    ∧ (enqueue ⟨[], []⟩ "example.com" 1 true none none none
        "ru").2.pending.contains (pendingKey "example.com" 1) = true
    ∧ PENDING_TTL = 300
    ∧ enqueue (enqueue ⟨[], []⟩ "example.com" 1 true none none none "ru").2
        "example.com" 1 true none none none "ru"
        = (false,
           (enqueue ⟨[], []⟩ "example.com" 1 true none none none "ru").2) :=
  claim_C3_idempotent_submit ⟨[], []⟩ "example.com" 1 true none none none
    "ru" rfl rfl

/-! ## Claim C4 — no queue bound exists -/

/-- C4 counterexample: with the queue already holding 1000 tasks and the
guard key absent, `enqueue` still succeeds and appends, growing the queue
to 1001 — it is not rejected with a queue-full error as the claim
states. -/
theorem claim_C4_counterexample :
    (enqueue
      ⟨List.replicate 1000 (mkTask "other.com" 2 true none none none "ru"),
       []⟩ "example.com" 1 true none none none "ru").1 = true
    ∧ (enqueue
      ⟨List.replicate 1000 (mkTask "other.com" 2 true none none none "ru"),
       []⟩ "example.com" 1 true none none none "ru").2.queue.length
        = 1001 := by
  constructor
  · rfl
  · have h2 : (enqueue
        ⟨List.replicate 1000 (mkTask "other.com" 2 true none none none "ru"),
         []⟩ "example.com" 1 true none none none "ru").2.queue
        = mkTask "example.com" 1 true none none none "ru"
          :: List.replicate 1000
              (mkTask "other.com" 2 true none none none "ru") := rfl
    rw [h2, List.length_cons, List.length_replicate]

/-- C4 (amended): `enqueue` performs no queue-depth check at all — whenever
the dedup-guard key is absent it appends the task and reports success, at
any queue depth; the only rejection it can produce is the already-queued
one. -/
theorem claim_C4_no_depth_bound (s : QueueState) (d : String) (u : Int)
    (sm : Bool) (cid mid tid : Option Int) (l : String)
    (hguard : s.pending.contains (pendingKey d u) = false) :
    (enqueue s d u sm cid mid tid l).1 = true
    ∧ (enqueue s d u sm cid mid tid l).2.queue.length
        = s.queue.length + 1 := by
  have hmem : pendingKey d u ∉ s.pending := by simpa using hguard
  constructor <;> simp [enqueue, hmem]

/-- Closed witness for C4 (amended) at depth 1000. -/
theorem claim_C4_witness :
    (enqueue
      ⟨List.replicate 1000 (mkTask "other.com" 2 true none none none "ru"),
       []⟩ "example.com" 1 false none none none "en").1 = true
    ∧ (enqueue
      ⟨List.replicate 1000 (mkTask "other.com" 2 true none none none "ru"),
       []⟩ "example.com" 1 false none none none "en").2.queue.length
        = (List.replicate 1000
            (mkTask "other.com" 2 true none none none "ru")).length + 1 :=
  claim_C4_no_depth_bound
    ⟨List.replicate 1000 (mkTask "other.com" 2 true none none none "ru"), []⟩
    "example.com" 1 false none none none "en" rfl

/-! ## Claim C5 — rate limiting is check-then-increment -/

/-- C5 counterexample: at a minute counter of 10 (threshold reached) the
gate rejects but increments neither counter — in particular the per-day
counter stays 0 instead of being incremented to 1 as the claim
("the counters are each incremented") requires. -/
theorem claim_C5_counterexample :
    (limitGate ⟨10, 0⟩).1 = false
    ∧ (limitGate ⟨10, 0⟩).2 = ⟨10, 0⟩
    ∧ (limitGate ⟨10, 0⟩).2.daily ≠ 0 + 1 := by
  decide

/-- C5 (amended): each counter is checked before being incremented and a
rejected submission performs no increment: the per-minute counter is
consulted first (reject at 10 leaves both counters unchanged), the per-day
counter is consulted only when the minute check passes (reject at 100
still consumes the minute slot), and a submission is admitted exactly when
both pre-increment counts are below their thresholds — equivalently, when
after incrementing both counters remain at or below 10 and 100.  Counter
TTLs equal the window lengths (60 s / 86400 s), and in one fresh window the
11-th submission is the first rejected one. -/
theorem claim_C5_check_then_increment (s : RateState) :
    ((limitGate s).1 = true ↔ s.minute < 10 ∧ s.daily < 100)
    ∧ ((limitGate s).1 = true ↔ s.minute + 1 ≤ 10 ∧ s.daily + 1 ≤ 100)
    ∧ ((limitGate s).1 = true →
        (limitGate s).2 = ⟨s.minute + 1, s.daily + 1⟩)
    ∧ (10 ≤ s.minute → (limitGate s).1 = false ∧ (limitGate s).2 = s)
    ∧ (s.minute < 10 → 100 ≤ s.daily →
        (limitGate s).1 = false
        ∧ (limitGate s).2 = ⟨s.minute + 1, s.daily⟩)
    ∧ RATE_WINDOW_TTL = 60 ∧ DAILY_WINDOW_TTL = 86400
    ∧ (∀ n, n < 10 → (limitGate (gateIter n)).1 = true)
    ∧ (limitGate (gateIter 10)).1 = false := by
  refine ⟨?_, ?_, ?_, ?_, ?_, rfl, rfl, by decide, by decide⟩ <;>
    · simp only [limitGate, check_rate_limit, check_daily_limit]
      rcases Nat.lt_or_ge s.minute 10 with h1 | h1 <;>
        rcases Nat.lt_or_ge s.daily 100 with h2 | h2 <;>
        simp [Nat.not_le.mpr, h1, h2, Nat.le_of_lt] <;>
        omega

/-- Closed witness for C5 (amended) at a fresh window. -/
theorem claim_C5_witness :
    (limitGate ⟨0, 0⟩).1 = true ∧ (limitGate ⟨0, 0⟩).2 = ⟨0 + 1, 0 + 1⟩ :=
  ⟨((claim_C5_check_then_increment ⟨0, 0⟩).1.mpr (by decide)),
   (claim_C5_check_then_increment ⟨0, 0⟩).2.2.1
     ((claim_C5_check_then_increment ⟨0, 0⟩).1.mpr (by decide))⟩

/-- C8 counterexample: the code reports "found in Spamhaus" for a reply
address entirely outside the block-list reply ranges — it never inspects
the reply address, so "listed only when the reply address falls in the
designated ranges" is false. -/
theorem claim_C8_counterexample :
    check_spamhaus "1.2.3.4" (.answer "10.0.0.1") "ru"
      = t_spamhaus_found "ru"
    ∧ specBlocklistReplyAddr "10.0.0.1" = false := by
  exact ⟨rfl, rfl⟩

/-- C8 (amended): the block-list check has exactly three outcomes, but
"listed" is reported for any successful reply regardless of its address
(the reply-address ranges are never consulted); NXDOMAIN means clean and
any other failure means unknown.  The query is the reverse-IP name under
the block-list zone. -/
theorem claim_C8_ternary (ip : String) (outcome : DnsQueryOutcome)
    (lang : String) :
    (check_spamhaus ip outcome lang = t_spamhaus_found lang
      ↔ ∃ a, outcome = .answer a)
    ∧ (check_spamhaus ip outcome lang = t_spamhaus_not_found lang
      ↔ outcome = .nxdomain)
    ∧ (check_spamhaus ip outcome lang = t_spamhaus_unavailable lang
      ↔ outcome = .failure)
    ∧ spamhausQuery "1.2.3.4" = "4.3.2.1.zen.spamhaus.org" := by
  rcases outcome with a | _ | _ <;> by_cases he : lang == "en" <;>
    simp [check_spamhaus, t_spamhaus_found, t_spamhaus_not_found,
      t_spamhaus_unavailable, isEn, he, spamhausQuery] <;> decide

/-! ## Claim C1 — suitability verdict -/

/-- The reasons list, re-expressed through the condition helpers (proof
glue only; the definition itself mirrors the source). -/
theorem suitability_reasons_eq (lang : String) (http2 : Bool)
    (tls : Option String) (ping : Option ℚ) (cdn : Option String) (thr : ℚ) :
    suitability_reasons lang http2 tls ping cdn thr
      = (if http2 then [] else [reasonHTTP2 lang])
        ++ (if isTLS13 tls then [] else [reasonTLS lang])
        ++ (if pingHigh ping thr then [reasonPing lang (ping.getD 0)] else [])
        ++ (if pyTruthyStr cdn
            then [reasonCDN lang (pyCapitalize (cdn.getD ""))] else []) := by
  rcases ping with _ | p
  · simp [suitability_reasons, pingHigh]
  · simp only [suitability_reasons, pingHigh, Option.getD]
    by_cases h : p ≠ 0 ∧ thr ≤ p <;> simp [h]

/-- The literal reason for a detected CDN always contains the token
`CDN`. -/
theorem pyInStr_CDN_reasonCDN (lang c : String) :
    pyInStr "CDN" (reasonCDN lang c) = true := by
  unfold reasonCDN
  by_cases he : lang == "en" <;> simp only [he, if_true, if_false] <;>
    exact pyInStr_append_left _ _ _ (pyInStr_append_left _ _ _ (by decide))

/-- C1 counterexample: with HTTP/2, TLS 1.3, no CDN and a FAILED latency
measurement (`get_ping` returned `None`), the verdict computed by the code is
"suitable", although there is no measured latency below the threshold —
so the claimed "suitable iff ... AND measured latency is below the
threshold ..." equivalence is false at this probe outcome. -/
theorem claim_C1_counterexample :
    suitability_line "ru" none
      (suitability_reasons "ru" true (some "TLSv1.3") none none 50)
      = t_suitable "ru"
    ∧ ¬ claimSuitable true (some "TLSv1.3") none none 50 := by
  constructor
  · rfl
  · rintro ⟨-, -, ⟨p, hp, -⟩, -⟩
    exact Option.noConfusion hp

/-- The suitable branch of the verdict line. -/
theorem suit_line_empty (lang : String) (cdn : Option String) :
    suitability_line lang cdn [] = t_suitable lang := by
  simp [suitability_line]

/-- The conditionally-suitable branch of the verdict line. -/
theorem suit_line_cdn_only (lang : String) (cdn : Option String)
    (hc : pyTruthyStr cdn = true) :
    suitability_line lang cdn [reasonCDN lang (pyCapitalize (cdn.getD ""))]
      = t_conditionally_suitable lang (pyCapitalize (cdn.getD "")) := by
  simp [suitability_line, hc, pyInStr_CDN_reasonCDN]

/-- The not-suitable branch of the verdict line. -/
theorem suit_line_not (lang : String) (cdn : Option String) (rs : List String)
    (h1 : rs ≠ [])
    (h2 : ¬(pyTruthyStr cdn = true ∧ rs.length = 1
      ∧ pyInStr "CDN" (rs.headD "") = true)) :
    suitability_line lang cdn rs
      = t_not_suitable lang (String.intercalate ", " rs) := by
  have hb : (pyTruthyStr cdn && rs.length == 1
      && pyInStr "CDN" (rs.headD "")) = false := by
    cases hx : (pyTruthyStr cdn && rs.length == 1
        && pyInStr "CDN" (rs.headD ""))
    · rfl
    · exact absurd (by simpa [Bool.and_eq_true, and_assoc] using hx) h2
  simp only [suitability_line]
  rw [if_neg h1, if_neg (show ¬(pyTruthyStr cdn && rs.length == 1
    && pyInStr "CDN" (rs.headD "")) = true by rw [hb]; simp)]

/-- C1 (amended): the verdict is a pure ternary function of the aggregated
probe results, with the latency criterion weakened to "no successfully
measured latency at or above the threshold" (a failed or zero measurement
passes): the verdict is "suitable" iff HTTP/2 is supported, the TLS
version is 1.3, no measured latency reaches the threshold and no CDN is
detected; if CDN detection is the only failing condition the verdict is
"conditionally suitable"; otherwise it is "not suitable" listing every
failing reason. -/
theorem claim_C1_verdict (lang : String) (http2 : Bool) (tls : Option String)
    (ping : Option ℚ) (cdn : Option String) (thr : ℚ) :
    (suitability_reasons lang http2 tls ping cdn thr = []
      ↔ http2 = true ∧ isTLS13 tls = true ∧ pingHigh ping thr = false
        ∧ pyTruthyStr cdn = false)
    ∧ (suitability_reasons lang http2 tls ping cdn thr = [] →
        suitability_line lang cdn
            (suitability_reasons lang http2 tls ping cdn thr)
          = t_suitable lang)
    ∧ (pyTruthyStr cdn = true → http2 = true → isTLS13 tls = true →
        pingHigh ping thr = false →
        suitability_line lang cdn
            (suitability_reasons lang http2 tls ping cdn thr)
          = t_conditionally_suitable lang (pyCapitalize (cdn.getD "")))
    ∧ (¬(http2 = true ∧ isTLS13 tls = true ∧ pingHigh ping thr = false) →
        suitability_line lang cdn
            (suitability_reasons lang http2 tls ping cdn thr)
          = t_not_suitable lang
              (String.intercalate ", "
                (suitability_reasons lang http2 tls ping cdn thr))
        ∧ (http2 = false → reasonHTTP2 lang
            ∈ suitability_reasons lang http2 tls ping cdn thr)
        ∧ (isTLS13 tls = false → reasonTLS lang
            ∈ suitability_reasons lang http2 tls ping cdn thr)
        ∧ (pingHigh ping thr = true → ∃ p, ping = some p
            ∧ reasonPing lang p
                ∈ suitability_reasons lang http2 tls ping cdn thr)
        ∧ (pyTruthyStr cdn = true →
            reasonCDN lang (pyCapitalize (cdn.getD ""))
              ∈ suitability_reasons lang http2 tls ping cdn thr)) := by
  refine ⟨?_, ?_, ?_, ?_⟩
  · rw [suitability_reasons_eq]
    cases hh : http2 <;> cases ht : isTLS13 tls <;>
      cases hp : pingHigh ping thr <;> cases hc : pyTruthyStr cdn <;>
      simp [ht, hp, hc]
  · intro h
    rw [h, suit_line_empty]
  · intro hc hh ht hp
    subst hh
    rw [suitability_reasons_eq, ht, hp, hc]
    simpa using suit_line_cdn_only lang cdn hc
  · intro h
    rcases Bool.eq_false_or_eq_true http2 with hh | hh <;>
      rcases Bool.eq_false_or_eq_true (isTLS13 tls) with ht | ht <;>
      rcases Bool.eq_false_or_eq_true (pingHigh ping thr) with hp | hp <;>
      rcases Bool.eq_false_or_eq_true (pyTruthyStr cdn) with hc | hc <;>
      first
        | (rw [suitability_reasons_eq, hh, ht, hp, hc]
           refine ⟨?_, ?_, ?_, ?_, ?_⟩ <;>
           first
             | (apply suit_line_not <;> (simp [hc]; done))
             | (intro hx; exact Bool.noConfusion hx)
             | (intro hx; simp; done)
             | (intro hx
                rcases ping with _ | p
                · exact absurd hp (by simp [pingHigh])
                · exact ⟨p, rfl, by simp⟩))
        | exact absurd ⟨hh, ht, hp⟩ h

/-- Closed witness for C1 (amended): missing HTTP/2 alone yields a
not-suitable verdict listing the HTTP/2 reason. -/
theorem claim_C1_witness :
    suitability_line "ru" none
        (suitability_reasons "ru" false none none none 50)
      = t_not_suitable "ru"
          (String.intercalate ", "
            (suitability_reasons "ru" false none none none 50))
    ∧ reasonHTTP2 "ru" ∈ suitability_reasons "ru" false none none none 50 :=
  ⟨((claim_C1_verdict "ru" false none none none 50).2.2.2 (by simp)).1,
   ((claim_C1_verdict "ru" false none none none 50).2.2.2 (by simp)).2.1 rfl⟩

/-! ## Claim C10 — failed latency probe passes the latency criterion -/

/-- C10: a failed (or zero) ping measurement contributes no latency
reason: with HTTP/2, TLS 1.3 and no CDN the verdict is "suitable" even
though no round-trip time was measured, an unmeasured or zero ping leaves
the reasons exactly as if no ping criterion existed, a measured ping below
the threshold (or zero) likewise adds nothing, and only a successfully
measured ping at or above the threshold changes the reasons list. -/
theorem claim_C10_unmeasured_ping (lang : String) (thr : ℚ) :
    (suitability_reasons lang true (some "TLSv1.3") none none thr = []
      ∧ suitability_line lang none
          (suitability_reasons lang true (some "TLSv1.3") none none thr)
          = t_suitable lang)
    ∧ (suitability_reasons lang true (some "TLSv1.3") (some 0) none thr = []
      ∧ suitability_line lang none
          (suitability_reasons lang true (some "TLSv1.3") (some 0) none thr)
          = t_suitable lang)
    ∧ (∀ (http2 : Bool) (tls : Option String) (cdn : Option String)
        (ping : Option ℚ), ping = none ∨ ping = some 0 →
        suitability_reasons lang http2 tls ping cdn thr
          = suitability_reasons lang http2 tls none cdn thr)
    ∧ (∀ (http2 : Bool) (tls : Option String) (cdn : Option String) (p : ℚ),
        ¬(p ≠ 0 ∧ thr ≤ p) →
        suitability_reasons lang http2 tls (some p) cdn thr
          = suitability_reasons lang http2 tls none cdn thr)
    ∧ (∀ (http2 : Bool) (tls : Option String) (cdn : Option String) (p : ℚ),
        p ≠ 0 → thr ≤ p →
        suitability_reasons lang http2 tls (some p) cdn thr
          ≠ suitability_reasons lang http2 tls none cdn thr) := by
  have hrs : suitability_reasons lang true (some "TLSv1.3") none none thr
      = [] := by
    simp [suitability_reasons, isTLS13, pyTruthyStr]
  have hrs0 : suitability_reasons lang true (some "TLSv1.3") (some 0) none thr
      = [] := by
    simp [suitability_reasons, isTLS13, pyTruthyStr]
  refine ⟨⟨hrs, ?_⟩, ⟨hrs0, ?_⟩, ?_, ?_, ?_⟩
  · rw [hrs, suit_line_empty]
  · rw [hrs0, suit_line_empty]
  · rintro http2 tls cdn ping (rfl | rfl)
    · rfl
    · simp [suitability_reasons]
  · intro http2 tls cdn p hcond
    simp [suitability_reasons, hcond]
  · intro http2 tls cdn p hp0 hthr heq
    have hLen := congrArg List.length heq
    rw [suitability_reasons_eq, suitability_reasons_eq] at hLen
    simp [pingHigh, hp0, hthr, List.length_append] at hLen

/-- Closed witness for C10 at a concrete below-threshold measured ping. -/
theorem claim_C10_witness :
    suitability_reasons "ru" false none (some 10) (some "cloudflare") 50
      = suitability_reasons "ru" false none none (some "cloudflare") 50 :=
  (claim_C10_unmeasured_ping "ru" 50).2.2.2.1 false none (some "cloudflare")
    10 (by norm_num)

/-! ## Claim C6 — retry with backoff -/

/-- Full case analysis of a `DOMAIN_CHECK_RETRY` run (three attempts). -/
theorem retry3_spec {E A : Type} (f : Nat → Except E A) (j : Nat → ℚ) :
    retry_with_backoff DOMAIN_CHECK_RETRY f j =
      match f 0 with
      | .ok a => (.ok a, [])
      | .error _ =>
        match f 1 with
        | .ok a => (.ok a, [jitteredDelay DOMAIN_CHECK_RETRY 0 (j 0)])
        | .error _ =>
          match f 2 with
          | .ok a => (.ok a, [jitteredDelay DOMAIN_CHECK_RETRY 0 (j 0),
              jitteredDelay DOMAIN_CHECK_RETRY 1 (j 1)])
          | .error e2 => (.error (some e2),
              [jitteredDelay DOMAIN_CHECK_RETRY 0 (j 0),
               jitteredDelay DOMAIN_CHECK_RETRY 1 (j 1)]) := by
  rcases h0 : f 0 with e0 | a0 <;> rcases h1 : f 1 with e1 | a1 <;>
    rcases h2 : f 2 with e2 | a2 <;>
    simp [retry_with_backoff, retryFrom, DOMAIN_CHECK_RETRY, h0, h1, h2]

/-- The nominal backoff schedule of `DOMAIN_CHECK_RETRY` is positive. -/
theorem backoffDelay_pos (i : Nat) : 0 < backoffDelay DOMAIN_CHECK_RETRY i := by
  rw [backoffDelay]
  apply lt_min
  · have : (0 : ℚ) < 2 ^ i := by positivity
    show (0 : ℚ) < DOMAIN_CHECK_RETRY.base_delay
      * DOMAIN_CHECK_RETRY.exponential_base ^ i
    show (0 : ℚ) < 2 * 2 ^ i
    linarith
  · show (0 : ℚ) < 30
    norm_num

/-- C6: under the domain-check configuration, `retry_with_backoff` makes
at most 3 attempts (the outcome depends only on the first three
invocations), returns the first successful attempt (in particular a run
failing twice then succeeding on the third attempt returns that success),
re-raises the last exception exactly when all three attempts fail, and
before each retry sleeps the capped exponential delay (2 s, then 4 s,
never above 30 s) modulated by a jitter factor in [1/2, 1), hence a delay
within ±50% of the nominal backoff value. -/
theorem claim_C6_retry_backoff {E A : Type} (f : Nat → Except E A)
    (j : Nat → ℚ) (hj : ∀ i, 0 ≤ j i ∧ j i < 1) :
    (∀ g : Nat → Except E A, (∀ k, k < 3 → g k = f k) →
      retry_with_backoff DOMAIN_CHECK_RETRY g j
        = retry_with_backoff DOMAIN_CHECK_RETRY f j)
    ∧ (∀ a, f 0 = .ok a →
        retry_with_backoff DOMAIN_CHECK_RETRY f j = (.ok a, []))
    ∧ (∀ e0 a, f 0 = .error e0 → f 1 = .ok a →
        retry_with_backoff DOMAIN_CHECK_RETRY f j
          = (.ok a, [jitteredDelay DOMAIN_CHECK_RETRY 0 (j 0)]))
    ∧ (∀ e0 e1 a, f 0 = .error e0 → f 1 = .error e1 → f 2 = .ok a →
        retry_with_backoff DOMAIN_CHECK_RETRY f j
          = (.ok a, [jitteredDelay DOMAIN_CHECK_RETRY 0 (j 0),
              jitteredDelay DOMAIN_CHECK_RETRY 1 (j 1)]))
    ∧ (∀ e0 e1 e2, f 0 = .error e0 → f 1 = .error e1 → f 2 = .error e2 →
        retry_with_backoff DOMAIN_CHECK_RETRY f j
          = (.error (some e2), [jitteredDelay DOMAIN_CHECK_RETRY 0 (j 0),
              jitteredDelay DOMAIN_CHECK_RETRY 1 (j 1)]))
    ∧ (backoffDelay DOMAIN_CHECK_RETRY 0 = 2
        ∧ backoffDelay DOMAIN_CHECK_RETRY 1 = 4
        ∧ ∀ i, backoffDelay DOMAIN_CHECK_RETRY i = min (2 * 2 ^ i) 30)
    ∧ (∀ i, backoffDelay DOMAIN_CHECK_RETRY i / 2
          ≤ jitteredDelay DOMAIN_CHECK_RETRY i (j i)
        ∧ jitteredDelay DOMAIN_CHECK_RETRY i (j i)
          < backoffDelay DOMAIN_CHECK_RETRY i
        ∧ jitteredDelay DOMAIN_CHECK_RETRY i (j i)
          ≤ 3 / 2 * backoffDelay DOMAIN_CHECK_RETRY i) := by
  refine ⟨?_, ?_, ?_, ?_, ?_, ⟨by norm_num [backoffDelay, DOMAIN_CHECK_RETRY],
    by norm_num [backoffDelay, DOMAIN_CHECK_RETRY],
    fun i => by norm_num [backoffDelay, DOMAIN_CHECK_RETRY]⟩, ?_⟩
  · intro g hg
    rw [retry3_spec g j, retry3_spec f j, hg 0 (by norm_num),
      hg 1 (by norm_num), hg 2 (by norm_num)]
  · intro a h0
    rw [retry3_spec, h0]
  · intro e0 a h0 h1
    rw [retry3_spec, h0, h1]
  · intro e0 e1 a h0 h1 h2
    rw [retry3_spec, h0, h1, h2]
  · intro e0 e1 e2 h0 h1 h2
    rw [retry3_spec, h0, h1, h2]
  · intro i
    have hb := backoffDelay_pos i
    have hji := hj i
    rw [jitteredDelay]
    have hcfg : DOMAIN_CHECK_RETRY.jitter = true := rfl
    rw [hcfg, if_pos rfl]
    refine ⟨by nlinarith [hji.1, hji.2], by nlinarith [hji.1, hji.2],
      by nlinarith [hji.1, hji.2]⟩

/-- Closed witness for C6: two failures then a success return the success
after nominal-halved delays of 1 s and 2 s (jitter draw 0). -/
theorem claim_C6_witness :
    retry_with_backoff DOMAIN_CHECK_RETRY
        (fun n => if n = 2 then Except.ok 7 else Except.error "boom")
        (fun _ => 0)
      = (Except.ok (7 : Nat), [1, 2]) := by
  have h := (claim_C6_retry_backoff
    (fun n => if n = 2 then Except.ok 7 else Except.error "boom")
    (fun _ => (0 : ℚ)) (fun i => by norm_num)).2.2.2.1 "boom" "boom" 7
    rfl rfl rfl
  rw [h]
  norm_num [jitteredDelay, backoffDelay, DOMAIN_CHECK_RETRY]

/-! ## Claim C2 — result cache key, TTL, and hit behaviour -/

/-- Redis `GET` after `SET` on the same key returns the written value. -/
theorem storeGet_set (st : Store) (k v : String) :
    storeGet (storeSet st k v) k = some v := by
  simp [storeGet, storeSet]

/-- The full report of the worker never renders to the empty string. -/
theorem full_output_ne_empty (domain : String) (dns : WDnsResult)
    (open_ports : List Nat) (geo : WGeoAsnResult) (tls : WTlsResult)
    (http : WHttpResult) (waf : WWafResult) (cname : WCnameResult)
    (who : WWhoisResult) (suitability : String) :
    full_output domain dns open_ports geo tls http waf cname who suitability
      ≠ "" := by
  unfold full_output full_output_segs
  rw [joinAll]
  apply ne_empty_left
  rw [string_data_append, string_data_append]
  simp

/-- Every report the worker renders carries the three full-report
markers checked by the cache read in the bot. -/
theorem is_full_report_full_output (domain : String) (dns : WDnsResult)
    (open_ports : List Nat) (geo : WGeoAsnResult) (tls : WTlsResult)
    (http : WHttpResult) (waf : WWafResult) (cname : WCnameResult)
    (who : WWhoisResult) (suitability : String) :
    is_full_report
      (full_output domain dns open_ports geo tls http waf cname who
        suitability) = true := by
  rw [is_full_report, full_output]
  have h1 : pyInStr "🌍 География"
      (joinAll (full_output_segs domain dns open_ports geo tls http waf cname
        who suitability)) = true := by
    apply pyInStr_joinAll _ _ "\n🌍 География и ASN\n"
    · simp [full_output_segs]
    · decide
  have h2 : pyInStr "📄 WHOIS"
      (joinAll (full_output_segs domain dns open_ports geo tls http waf cname
        who suitability)) = true := by
    apply pyInStr_joinAll _ _ "\n📄 WHOIS\n"
    · simp [full_output_segs]
    · decide
  have h3 : pyInStr "⏱️ TTFB"
      (joinAll (full_output_segs domain dns open_ports geo tls http waf cname
        who suitability)) = true := by
    apply pyInStr_joinAll _ _
      ("⏱️ TTFB: " ++ pyOrStr http.ttfb "неизвестно" ++ "\n")
    · simp [full_output_segs]
    · exact pyInStr_append_left _ _ _ (pyInStr_append_left _ _ _ (by decide))
  rw [h1, h2, h3]
  rfl

/-- C2 counterexample: the worker caches the rendered report under
`result:&lt;target&gt;` — the mode is not part of the key — with a TTL of 86400
seconds (1 day, not 7 days), and after a completed check of a target the
subsequent FULL-mode check is also a cache hit (the cached report always
passes the full-report marker test), contradicting the claimed
`result:&lt;target&gt;:&lt;mode&gt;` key format, 7-day TTL, and full-mode cache
miss. -/
theorem claim_C2_counterexample :
    resultKey "example.com" ≠ claimResultKey "example.com" "full"
    ∧ resultKey "example.com" ≠ claimResultKey "example.com" "short"
    ∧ RESULT_TTL ≠ 604800
    ∧ cacheHit
        (cacheWrite [] "example.com"
          (full_output "example.com" ⟨some "1.2.3.4", none⟩ []
            ⟨"N/A", "N/A", none⟩ ⟨none, none, none, none⟩
            ⟨"HTTP/1.1", none, none, none, none, none⟩ ⟨none⟩ ⟨none, none⟩
            ⟨"Неизвестно"⟩ "✅ Пригоден для Reality"))
        "example.com" false = true := by
  refine ⟨by decide, by decide, by decide, ?_⟩
  rw [cacheHit, cacheWrite, storeGet_set]
  have hne := full_output_ne_empty "example.com" ⟨some "1.2.3.4", none⟩ []
    ⟨"N/A", "N/A", none⟩ ⟨none, none, none, none⟩
    ⟨"HTTP/1.1", none, none, none, none, none⟩ ⟨none⟩ ⟨none, none⟩
    ⟨"Неизвестно"⟩ "✅ Пригоден для Reality"
  simp [pyTruthyStr, hne, is_full_report_full_output]

/-- C2 (amended): after a successfully completed check the worker caches
the rendered FULL report under the key `result:&lt;target&gt;` (the mode is not
part of the key) with a TTL of 86400 seconds (1 day); a subsequent check
of the same target is then a cache hit without re-invoking the probe
engine in BOTH modes — short mode unconditionally, full mode because the
cached worker report always contains the full-report markers. -/
theorem claim_C2_cache_behaviour (st : Store) (domain : String)
    (dns : WDnsResult) (open_ports : List Nat) (geo : WGeoAsnResult)
    (tls : WTlsResult) (http : WHttpResult) (waf : WWafResult)
    (cname : WCnameResult) (who : WWhoisResult) (suitability : String) :
    resultKey domain = "result:" ++ domain
    ∧ RESULT_TTL = 86400
    ∧ is_full_report
        (full_output domain dns open_ports geo tls http waf cname who
          suitability) = true
    ∧ cacheHit
        (cacheWrite st domain
          (full_output domain dns open_ports geo tls http waf cname who
            suitability)) domain true = true
    ∧ cacheHit
        (cacheWrite st domain
          (full_output domain dns open_ports geo tls http waf cname who
            suitability)) domain false = true := by
  refine ⟨rfl, rfl, is_full_report_full_output _ _ _ _ _ _ _ _ _ _, ?_, ?_⟩ <;>
    · rw [cacheHit, cacheWrite, storeGet_set]
      simp [pyTruthyStr, is_full_report_full_output,
        full_output_ne_empty domain dns open_ports geo tls http waf cname who
          suitability]

/-- Closed witness for C2 (amended) at a concrete report. -/
theorem claim_C2_witness :
    resultKey "test.io" = "result:" ++ "test.io"
    ∧ RESULT_TTL = 86400
    ∧ is_full_report
        (full_output "test.io" ⟨none, some "boom"⟩ [443]
          ⟨"X", "Y", some "~1.0 ms"⟩ ⟨some "TLSv1.3", some "C", none, none⟩
          ⟨"HTTP/2", some "h3", some "10 ms", some "r", some "s", none⟩
          ⟨some "W"⟩ ⟨some "cf", some "cn"⟩ ⟨"2031-01-01"⟩ "ok") = true
    ∧ cacheHit
        (cacheWrite [] "test.io"
          (full_output "test.io" ⟨none, some "boom"⟩ [443]
            ⟨"X", "Y", some "~1.0 ms"⟩ ⟨some "TLSv1.3", some "C", none, none⟩
            ⟨"HTTP/2", some "h3", some "10 ms", some "r", some "s", none⟩
            ⟨some "W"⟩ ⟨some "cf", some "cn"⟩ ⟨"2031-01-01"⟩ "ok"))
        "test.io" true = true
    ∧ cacheHit
        (cacheWrite [] "test.io"
          (full_output "test.io" ⟨none, some "boom"⟩ [443]
            ⟨"X", "Y", some "~1.0 ms"⟩ ⟨some "TLSv1.3", some "C", none, none⟩
            ⟨"HTTP/2", some "h3", some "10 ms", some "r", some "s", none⟩
            ⟨some "W"⟩ ⟨some "cf", some "cn"⟩ ⟨"2031-01-01"⟩ "ok"))
        "test.io" false = true :=
  claim_C2_cache_behaviour [] "test.io" ⟨none, some "boom"⟩ [443]
    ⟨"X", "Y", some "~1.0 ms"⟩ ⟨some "TLSv1.3", some "C", none, none⟩
    ⟨"HTTP/2", some "h3", some "10 ms", some "r", some "s", none⟩
    ⟨some "W"⟩ ⟨some "cf", some "cn"⟩ ⟨"2031-01-01"⟩ "ok"

/-- C7: for a parseable target, DNS is invoked first; when it fails the
returned report consists of exactly the header and the DNS-failure line
and no other sub-probe is invoked; when it succeeds some report is always
produced (its probe trace still starting with DNS), failing sub-probes are
rendered inline as failure lines (shown for the TLS and ping probes in the
full report), and the report still carries the suitability section and
verdict line. -/
theorem claim_C7_dns_terminal (env : Env) (dp : String) (thr : ℚ)
    (fr : Bool) (lang : String) (d : String) (p : Int)
    (hparse : parseDomainPort dp = Except.ok (d, p)) :
    (env.dns = none →
      runCheck env dp thr fr lang
        = (Except.ok [t_checking lang ++ " " ++ d ++ ":", t_dns_fail lang],
           [Probe.dns]))
    ∧ (∀ ip, env.dns = some ip → ∃ lines,
        (runCheck env dp thr fr lang).1 = Except.ok lines
        ∧ (runCheck env dp thr fr lang).2.head? = some Probe.dns
        ∧ (fr = true → pyTruthyStr env.tls.tls = false →
            t_tls_error lang
              (if lang == "ru" then pyOrStr env.tls.error "неизвестно"
               else "unknown") ∈ lines)
        ∧ (fr = true → pyTruthyQ env.ping = false →
            t_ping_fail lang ∈ lines)
        ∧ (fr = true → ("\n" ++ t_section_suitability lang) ∈ lines)
        ∧ (fr = true → runCheckVerdictLine env thr lang ∈ lines)) := by
  constructor
  · intro hdns
    simp [runCheck, hparse, hdns]
  · intro ip hdns
    rcases Bool.eq_false_or_eq_true fr with hfr | hfr <;> subst hfr
    · refine ⟨runCheckFullLines env d ip thr lang, ?_, ?_, ?_, ?_, ?_, ?_⟩
      · simp [runCheck, hparse, hdns]
      · simp [runCheck, hparse, hdns]
      · intro _ htls
        simp only [runCheckFullLines, tls_results, htls, if_false,
          Bool.false_eq_true, ite_false]
        simp [List.mem_append]
      · intro _ hping
        simp only [runCheckFullLines, ping_result, hping, if_false,
          Bool.false_eq_true, ite_false]
        simp [List.mem_append]
      · intro _
        simp [runCheckFullLines, List.mem_append]
      · intro _
        simp [runCheckFullLines, List.mem_append]
    · refine ⟨runCheckShortLines env d ip thr lang, ?_, ?_, ?_, ?_, ?_, ?_⟩
      · simp [runCheck, hparse, hdns]
      · simp [runCheck, hparse, hdns]
      all_goals intro hfr; exact Bool.noConfusion hfr

/-- Closed witness for C7: a DNS failure yields the two-line report with a
DNS-only trace, and a DNS success on an otherwise all-failing environment
still produces a report containing the inline TLS failure line and the
verdict line. -/
theorem claim_C7_witness :
    (runCheck env0 "example.com" 50 true "ru"
      = (Except.ok [t_checking "ru" ++ " " ++ "example.com" ++ ":",
          t_dns_fail "ru"], [Probe.dns]))
    ∧ ∃ lines,
        (runCheck env1 "example.com" 50 true "ru").1 = Except.ok lines
        ∧ (runCheck env1 "example.com" 50 true "ru").2.head?
            = some Probe.dns
        ∧ t_tls_error "ru"
            (if "ru" == "ru" then pyOrStr env1.tls.error "неизвестно"
             else "unknown") ∈ lines
        ∧ t_ping_fail "ru" ∈ lines
        ∧ ("\n" ++ t_section_suitability "ru") ∈ lines
        ∧ runCheckVerdictLine env1 50 "ru" ∈ lines := by
  constructor
  · exact (claim_C7_dns_terminal env0 "example.com" 50 true "ru"
      "example.com" 443 rfl).1 rfl
  · obtain ⟨lines, h1, h2, h3, h4, h5, h6⟩ :=
      (claim_C7_dns_terminal env1 "example.com" 50 true "ru"
        "example.com" 443 rfl).2 "1.2.3.4" rfl
    exact ⟨lines, h1, h2, h3 rfl rfl, h4 rfl rfl, h5 rfl, h6 rfl⟩

/-! ## Claim C9 — totality of run_check -/

/-- C9 counterexample: a non-numeric port suffix makes `int(port_str)`
raise a `ValueError` that escapes `run_check` — the caller receives an
exception, not a textual report. -/
theorem claim_C9_counterexample :
    (runCheck env0 "example.com:abc" 50 true "ru").1
      = Except.error
          ("ValueError: invalid literal for int() with base 10: abc") := by
  rfl

/-- C9 (amended): for every probe outcome and every target whose optional
port suffix parses as an integer, `run_check` returns a textual report and
raises nothing — all probe errors are captured inside the probe functions
and only rendered; but for a target with a non-numeric port suffix the
`int(port_str)` conversion raises a `ValueError` that escapes to the
caller. -/
theorem claim_C9_total (env : Env) (dp : String) (thr : ℚ) (fr : Bool)
    (lang : String) :
    ((∃ d p, parseDomainPort dp = Except.ok (d, p)) →
      (runCheck env dp thr fr lang).1.isOk = true)
    ∧ (∀ e, parseDomainPort dp = Except.error e →
        (runCheck env dp thr fr lang).1 = Except.error e) := by
  constructor
  · rintro ⟨d, p, h⟩
    rcases hd : env.dns with _ | ip <;>
      rcases Bool.eq_false_or_eq_true fr with hfr | hfr <;> subst hfr <;>
      simp [runCheck, h, hd, Except.isOk, Except.toBool]
  · intro e h
    simp [runCheck, h]

/-- Closed witness for C9 (amended): a plain domain and an explicit
numeric port both produce reports. -/
theorem claim_C9_witness :
    (runCheck env0 "example.com" 50 true "ru").1.isOk = true
    ∧ (runCheck env1 "example.com:8443" 50 false "en").1.isOk = true :=
  ⟨(claim_C9_total env0 "example.com" 50 true "ru").1
      ⟨"example.com", 443, rfl⟩,
   (claim_C9_total env1 "example.com:8443" 50 false "en").1
      ⟨"example.com", 8443, rfl⟩⟩
